import Mathlib

/-!
Verification of the state-management core and the movie-app reducers of
`src/app.js` (marksalvin/movies-list-app).

The JavaScript source is shallowly embedded as follows.

* The generic store (`createStore`, lines 4-38) is a `Store` record
  holding the current state, the subscriber list and the two
  string-keyed registries.  `dispatch` is embedded as a pure function
  returning a `DispatchResult`: the possibly thrown reducer exception
  (`state = reducers[type](...)` throws before the assignment, so on a
  throw the state variable keeps its old value and the `forEach` over
  subscribers never runs), the store after the call, and the trace of
  subscriber invocations.  A trace entry `(sub, s)` records that
  subscriber `sub` was called with state `s` and the
  `{dispatch, dispatchEffect}` handle; subscriber callbacks are treated
  as opaque observers (the sole subscriber of the app, `renderMoviesList`,
  does not dispatch synchronously during notification).
* `dispatchEffect` (lines 24-30) never writes `state` or `subscribers`;
  it is embedded as a function returning the store unchanged together
  with an optional record of the one handler invocation it performs.
* JavaScript objects with a known field set become structures; a field
  that may be `undefined` becomes an `Option`.  `Object.assign({}, s,
  patch)` on such a structure is the record update `{ s with ... }`;
  the `extra` field stands for any further properties of the state
  object, which every `Object.assign` in the source copies over
  verbatim.  JS numbers that the code never computes with (ratings)
  stay a type parameter `ρ`.
-/

namespace MoviesListApp

/-- A dispatched action as the generic store sees it: the routing key
`type` (`const { type } = action`, line 15) plus an opaque payload. -/
structure GAction (π : Type) where
  type : String
  payload : π

/-- The store created by `createStore` (lines 4-38): current state,
subscriber list (`subscribers`, notification order = insertion order),
and the two registries passed at creation.  A registered reducer may
throw (`Except.error`); effect handlers are opaque values of type `φ`. -/
structure Store (σ ν π ε φ : Type) where
  state : σ
  subscribers : List ν
  reducers : String → Option (σ → GAction π → Except ε σ)
  effects : String → Option φ

/-- Observable outcome of one `dispatch` call: `thrown` is the reducer
exception propagated to the caller (if any), `store` the store after
the call, and `trace` the subscriber invocations performed, in order,
each paired with the state it received. -/
structure DispatchResult (σ ν π ε φ : Type) where
  thrown : Option ε
  store : Store σ ν π ε φ
  trace : List (ν × σ)

/-- Embeds `dispatch` (lines 14-22): look up `reducers[type]`; on a miss return
at once; otherwise run the reducer — a throw aborts before the `state`
assignment and before the subscriber loop — and on normal return
replace `state` with the result, then call every subscriber with the
new state and the dispatcher handle. -/
def dispatch {σ ν π ε φ : Type} (st : Store σ ν π ε φ) (a : GAction π) :
    DispatchResult σ ν π ε φ :=
  match st.reducers a.type with
  | none => { thrown := none, store := st, trace := [] }
  | some r =>
    match r st.state a with
    | Except.error e => { thrown := some e, store := st, trace := [] }
    | Except.ok newState =>
      { thrown := none
        store := { st with state := newState }
        trace := st.subscribers.map (fun sub => (sub, newState)) }

/-- Embeds `dispatchEffect` (lines 24-30): look up `effects[type]`; on a miss
return at once; otherwise invoke the handler with the current state,
the action and the dispatcher handle.  It never writes `state` or
`subscribers`, so the store is returned as is; the second component
records the handler invocation performed, if any. -/
def dispatchEffect {σ ν π ε φ : Type} (st : Store σ ν π ε φ) (a : GAction π) :
    Store σ ν π ε φ × Option (φ × σ × GAction π) :=
  match st.effects a.type with
  | none => (st, none)
  | some f => (st, some (f, st.state, a))

/-- A raw result object from the movie-search endpoint, with the fields
`buildMovieObject` (lines 43-49) reads.  `ρ` is the JS number type of
`vote_average`. -/
structure RawMovie (ρ : Type) where
  title : String
  poster_path : String
  vote_average : ρ
  overview : String

/-- A normalized display record as built by `buildMovieObject`
(lines 43-49). -/
structure Movie (ρ : Type) where
  title : String
  thumbnail : String
  rating : ρ
  description : String
  showDescription : Bool

/-- Embeds `buildMovieObject` (lines 43-49). -/
def buildMovieObject {ρ : Type} (movie : RawMovie ρ) : Movie ρ :=
  { title := movie.title
    thumbnail := "https://image.tmdb.org/t/p/w92/" ++ movie.poster_path
    rating := movie.vote_average
    description := movie.overview
    showDescription := false }

/-- The application state object.  `none` models an absent or
`undefined` field; `extra` stands for any other properties, which every
`Object.assign({}, state, ...)` in the source copies over unchanged. -/
structure AppState (ρ ε : Type) where
  items : Option (List (Movie ρ))
  isFetchingItems : Option Bool
  error : Option String
  extra : ε

/-- An action of the movie pipeline: the routing key plus the payload
fields the four reducers and the search effect read (`index`, `data`,
`error`, `query`), each `none` when absent from the action object. -/
structure MovieAction (ρ : Type) where
  type : String
  index : Option Int
  data : Option (List (Movie ρ))
  error : Option String
  query : Option String

/-- Line 54. -/
def FETCH_MOVIES_REQUEST : String := "FETCH_MOVIES_REQUEST"

/-- Line 55. -/
def FETCH_MOVIES_SUCCESS : String := "FETCH_MOVIES_SUCCESS"

/-- Line 56. -/
def FETCH_MOVIES_FAILURE : String := "FETCH_MOVIES_FAILURE"

/-- Line 57: the constant named `SHOW_MOVIE_DESCRIPTION` holds the
string `"SHOW_MOVIES_DESCRIPTION"` (plural `MOVIES`). -/
def SHOW_MOVIE_DESCRIPTION : String := "SHOW_MOVIES_DESCRIPTION"

/-- Embeds `fetchMoviesRequest` (lines 59-60):
`Object.assign({}, state, { isFetchingItems: true, error: undefined })`. -/
def fetchMoviesRequest {ρ ε : Type} (state : AppState ρ ε) (_action : MovieAction ρ) :
    AppState ρ ε :=
  { state with isFetchingItems := some true, error := none }

/-- Embeds `fetchMoviesSuccess` (lines 83-84):
`Object.assign({}, state, { items: action.data, isFetchingItems: false })`. -/
def fetchMoviesSuccess {ρ ε : Type} (state : AppState ρ ε) (action : MovieAction ρ) :
    AppState ρ ε :=
  { state with items := action.data, isFetchingItems := some false }

/-- Embeds `fetchMoviesFailure` (lines 86-91): `Object.assign({}, state,
{ items: undefined, isFetchingItems: false, error: action.error })`. -/
def fetchMoviesFailure {ρ ε : Type} (state : AppState ρ ε) (action : MovieAction ρ) :
    AppState ρ ε :=
  { state with items := none, isFetchingItems := some false, error := action.error }

/-- The `state.items.map((item, index) => ...)` body of
`showMovieDescription` (lines 97-103): position `i` counts up from the
initial argument `0`; the item whose position satisfies
`index === action.index` gets `showDescription: true`, every other item
gets `showDescription: false`, all built by `Object.assign({}, item,
...)` so the remaining fields are copied. -/
def selectItems {ρ : Type} (aIdx : Option Int) : Nat → List (Movie ρ) → List (Movie ρ)
  | _, [] => []
  | i, m :: rest =>
    (if aIdx = some (i : Int)
     then { m with showDescription := true }
     else { m with showDescription := false }) :: selectItems aIdx (i + 1) rest

/-- Embeds `showMovieDescription` (lines 93-107).  The guard
`state.items && state.items.length && state.items.length > 0` holds
exactly when `items` is present and non-empty (a JS array is truthy,
its `length` is truthy iff nonzero); when it fails the local `items`
stays `undefined` and `Object.assign({}, state, { items })` writes
`undefined` over any existing `items`. -/
def showMovieDescription {ρ ε : Type} (state : AppState ρ ε) (action : MovieAction ρ) :
    AppState ρ ε :=
  let items : Option (List (Movie ρ)) :=
    match state.items with
    | none => none
    | some l => if 0 < l.length then some (selectItems action.index 0 l) else none
  { state with items := items }

/-- The `reducers` registry object (lines 109-114), keyed by the values
of the four constants (JS computed keys). -/
def reducers (ρ ε : Type) (t : String) :
    Option (AppState ρ ε → MovieAction ρ → AppState ρ ε) :=
  if t = FETCH_MOVIES_REQUEST then some fetchMoviesRequest
  else if t = FETCH_MOVIES_SUCCESS then some fetchMoviesSuccess
  else if t = FETCH_MOVIES_FAILURE then some fetchMoviesFailure
  else if t = SHOW_MOVIE_DESCRIPTION then some showMovieDescription
  else none

/-- Resolution of the promise chain inside `fetchMoviesRequestEffect`
(lines 62-81), as seen by its two `dispatch` sites.  `success results`
is the path where the response is 2xx, the body parses, and
`response.results` is an array.  `failure e` is every path that reaches
the `.catch` handler — a network rejection, a non-2xx response
(rejected with `response.statusText`), a `json()` rejection, or the
`TypeError` thrown by `.map` when `response.results` is `undefined`
(per the comment in the source, undefined results are caught below); `e` is the
template-literal stringification of the caught value. -/
inductive FetchOutcome (ρ : Type) where
  | success (results : List (RawMovie ρ))
  | failure (stringifiedError : String)

/-- Embeds `fetchMoviesRequestEffect` (lines 62-81), as the function from the
action it receives and the resolution of its fetch chain to the action
it dispatches.  `action.query &&` short-circuits when the query is
absent or the empty string, so nothing is fetched or dispatched.  On
success it dispatches `FETCH_MOVIES_SUCCESS` with
`results.map(buildMovieObject)`; in the catch handler it dispatches
`FETCH_MOVIES_FAILURE` with error payload
given by the template literal of the error, or-else the fallback
literal: the stringified error when that string is non-empty (truthy),
the literal `"Unknown error"` when it is empty. -/
def fetchMoviesRequestEffect {ρ : Type} (action : MovieAction ρ)
    (outcome : FetchOutcome ρ) : Option (MovieAction ρ) :=
  match action.query with
  | none => none
  | some q =>
    if q = "" then none
    else
      match outcome with
      | FetchOutcome.success results =>
        some { type := FETCH_MOVIES_SUCCESS, index := none
               data := some (results.map buildMovieObject)
               error := none, query := none }
      | FetchOutcome.failure e =>
        some { type := FETCH_MOVIES_FAILURE, index := none, data := none
               error := some (if e = "" then "Unknown error" else e)
               query := none }

/-- A concrete store with empty registries, one subscriber and state
`0`, used to exercise the generic store theorems. -/
def emptyStore : Store Nat Nat Unit String Unit :=
  { state := 0
    subscribers := [7]
    reducers := fun _ => none
    effects := fun _ => none }

/-- A concrete store whose only reducer, registered under `"BOOM"`,
always throws. -/
def throwingStore : Store Nat Nat Unit String Unit :=
  { state := 5
    subscribers := [1, 2]
    reducers := fun t =>
      if t = "BOOM" then some (fun _ _ => Except.error "bad") else none
    effects := fun _ => none }

/-- A concrete store whose only reducer, registered under `"INC"`,
increments the state; the subscriber list contains a duplicate
registration. -/
def incStore : Store Nat Nat Unit String Unit :=
  { state := 5
    subscribers := [1, 1, 2]
    reducers := fun t =>
      if t = "INC" then some (fun s _ => Except.ok (s + 1)) else none
    effects := fun _ => none }

/-- C1: routing miss is a silent no-op on both channels — for an action
whose kind has no registered reducer, `dispatch` throws nothing, leaves
the store (hence `getState()`) unchanged and invokes no subscriber; for
an action whose kind has no registered effect, `dispatchEffect` leaves
the store unchanged and invokes no handler. -/
theorem routing_miss_noop {σ ν π ε φ : Type} (st : Store σ ν π ε φ) (a : GAction π) :
    (st.reducers a.type = none →
      dispatch st a = { thrown := none, store := st, trace := [] }) ∧
    (st.effects a.type = none → dispatchEffect st a = (st, none)) := by
  constructor
  · intro h
    unfold dispatch
    rw [h]
  · intro h
    unfold dispatchEffect
    rw [h]

/-- Witness for C1 at the concrete store `emptyStore` and an action of
kind `"NOPE"`. -/
theorem routing_miss_noop_witness :
    dispatch emptyStore { type := "NOPE", payload := () } =
      { thrown := none, store := emptyStore, trace := [] } ∧
    dispatchEffect emptyStore { type := "NOPE", payload := () } = (emptyStore, none) :=
  ⟨(routing_miss_noop emptyStore { type := "NOPE", payload := () }).1 rfl,
   (routing_miss_noop emptyStore { type := "NOPE", payload := () }).2 rfl⟩

/-- C2: reducer-fault atomicity — when the registered reducer throws,
`dispatch` propagates exactly that exception to its caller, the store
(hence the state returned by `getState()`) is exactly what it was
before the call, and no subscriber is invoked. -/
theorem reducer_fault_atomicity {σ ν π ε φ : Type} (st : Store σ ν π ε φ)
    (a : GAction π) (r : σ → GAction π → Except ε σ) (e : ε)
    (hr : st.reducers a.type = some r) (he : r st.state a = Except.error e) :
    dispatch st a = { thrown := some e, store := st, trace := [] } := by
  simp [dispatch, hr, he]

/-- Witness for C2 at the concrete store `throwingStore`. -/
theorem reducer_fault_atomicity_witness :
    dispatch throwingStore { type := "BOOM", payload := () } =
      { thrown := some "bad", store := throwingStore, trace := [] } :=
  reducer_fault_atomicity throwingStore { type := "BOOM", payload := () }
    (fun _ _ => Except.error "bad") "bad" rfl rfl

/-- C3: when the registered reducer returns normally, `dispatch`
replaces the state with the result of the reducer and then invokes
every registered subscriber, in registration order and once per
registration (duplicates included), each invocation receiving the
post-transition state (together with the dispatcher handle, which every
trace entry carries by construction). -/
theorem dispatch_success_notifies {σ ν π ε φ : Type} (st : Store σ ν π ε φ)
    (a : GAction π) (r : σ → GAction π → Except ε σ) (newState : σ)
    (hr : st.reducers a.type = some r) (hok : r st.state a = Except.ok newState) :
    dispatch st a =
      { thrown := none
        store := { st with state := newState }
        trace := st.subscribers.map (fun sub => (sub, newState)) } := by
  simp [dispatch, hr, hok]

/-- Witness for C3 at the concrete store `incStore`, whose subscriber
list `[1, 1, 2]` holds a duplicate registration: the trace notifies the
duplicate twice, in order, with the post-transition state `6`. -/
theorem dispatch_success_notifies_witness :
    dispatch incStore { type := "INC", payload := () } =
      { thrown := none
        store := { incStore with state := 6 }
        trace := [(1, 6), (1, 6), (2, 6)] } := by
  have h := dispatch_success_notifies incStore { type := "INC", payload := () }
    (fun s _ => Except.ok (s + 1)) 6 rfl rfl
  rw [h]
  rfl

/-- Counterexample to C4 as stated: the kind under which the
show-description reducer is registered is not the string
`"SHOW_MOVIE_DESCRIPTION"` — the constant (line 57) holds
`"SHOW_MOVIES_DESCRIPTION"`, and the registry has no entry under
`"SHOW_MOVIE_DESCRIPTION"`. -/
theorem action_kinds_counterexample :
    SHOW_MOVIE_DESCRIPTION ≠ "SHOW_MOVIE_DESCRIPTION" ∧
    reducers Nat Unit "SHOW_MOVIE_DESCRIPTION" = none := by
  constructor
  · decide
  · rfl

/-- C4 (amended): the action-kind string constants are exactly
`"FETCH_MOVIES_REQUEST"`, `"FETCH_MOVIES_SUCCESS"`,
`"FETCH_MOVIES_FAILURE"` and `"SHOW_MOVIES_DESCRIPTION"`; in
particular the show-description reducer is registered under the exact
string `"SHOW_MOVIES_DESCRIPTION"`. -/
theorem action_kinds_exact :
    FETCH_MOVIES_REQUEST = "FETCH_MOVIES_REQUEST" ∧
    FETCH_MOVIES_SUCCESS = "FETCH_MOVIES_SUCCESS" ∧
    FETCH_MOVIES_FAILURE = "FETCH_MOVIES_FAILURE" ∧
    SHOW_MOVIE_DESCRIPTION = "SHOW_MOVIES_DESCRIPTION" ∧
    ∀ ρ ε : Type, reducers ρ ε "SHOW_MOVIES_DESCRIPTION" = some showMovieDescription :=
  ⟨rfl, rfl, rfl, rfl, fun _ _ => rfl⟩

/-- C7: the `FETCH_MOVIES_REQUEST` reducer sets `isFetchingItems` to
`true`, clears the `error` field, and carries every other field of the
input state over unchanged. -/
theorem fetch_movies_request_spec {ρ ε : Type} (s : AppState ρ ε) (a : MovieAction ρ) :
    (fetchMoviesRequest s a).isFetchingItems = some true ∧
    (fetchMoviesRequest s a).error = none ∧
    (fetchMoviesRequest s a).items = s.items ∧
    (fetchMoviesRequest s a).extra = s.extra :=
  ⟨rfl, rfl, rfl, rfl⟩

/-- C8: the `FETCH_MOVIES_FAILURE` reducer, on an action carrying error
message `"Network down"`, sets `error` to `"Network down"`, clears
`items`, sets `isFetchingItems` to `false`, and carries every other
field of the input state over unchanged. -/
theorem fetch_movies_failure_spec {ρ ε : Type} (s : AppState ρ ε) (a : MovieAction ρ)
    (h : a.error = some "Network down") :
    (fetchMoviesFailure s a).error = some "Network down" ∧
    (fetchMoviesFailure s a).items = none ∧
    (fetchMoviesFailure s a).isFetchingItems = some false ∧
    (fetchMoviesFailure s a).extra = s.extra := by
  refine ⟨?_, rfl, rfl, rfl⟩
  simp [fetchMoviesFailure, h]

/-- A concrete movie record. -/
def demoMovie : Movie Nat :=
  { title := "Alien"
    thumbnail := "https://image.tmdb.org/t/p/w92/x.jpg"
    rating := 8
    description := "crew meets alien"
    showDescription := false }

/-- A concrete application state holding one item. -/
def demoState : AppState Nat Unit :=
  { items := some [demoMovie]
    isFetchingItems := some true
    error := none
    extra := () }

/-- Witness for C8 at `demoState` and a concrete failure action. -/
theorem fetch_movies_failure_spec_witness :
    (fetchMoviesFailure demoState
        { type := FETCH_MOVIES_FAILURE, index := none, data := none
          error := some "Network down", query := none }).error = some "Network down" ∧
    (fetchMoviesFailure demoState
        { type := FETCH_MOVIES_FAILURE, index := none, data := none
          error := some "Network down", query := none }).items = none ∧
    (fetchMoviesFailure demoState
        { type := FETCH_MOVIES_FAILURE, index := none, data := none
          error := some "Network down", query := none }).isFetchingItems = some false ∧
    (fetchMoviesFailure demoState
        { type := FETCH_MOVIES_FAILURE, index := none, data := none
          error := some "Network down", query := none }).extra = demoState.extra :=
  fetch_movies_failure_spec demoState
    { type := FETCH_MOVIES_FAILURE, index := none, data := none
      error := some "Network down", query := none } rfl

/-- C6: dispatching the show-description action with `index = 1`
against a 3-item state yields a state whose item 1 has
`showDescription = true`, whose items 0 and 2 have
`showDescription = false`, and in which every other field of every item
and of the state is unchanged. -/
theorem show_description_index_one {ρ ε : Type} (s : AppState ρ ε) (a : MovieAction ρ)
    (m0 m1 m2 : Movie ρ) (hi : s.items = some [m0, m1, m2]) (ha : a.index = some 1) :
    showMovieDescription s a =
      { s with
        items := some [{ m0 with showDescription := false },
                       { m1 with showDescription := true },
                       { m2 with showDescription := false }] } := by
  simp [showMovieDescription, hi, ha, selectItems]

/-- Witness for C6: a concrete 3-item state with three distinct
records. -/
theorem show_description_index_one_witness :
    showMovieDescription
      (AppState.mk (some
        [Movie.mk "a" "ta" 1 "da" true,
         Movie.mk "b" "tb" 2 "db" false,
         Movie.mk "c" "tc" 3 "dc" true])
        (some false) (some "old") ())
      (MovieAction.mk SHOW_MOVIE_DESCRIPTION (some 1) none none none) =
      AppState.mk (some
        [Movie.mk "a" "ta" 1 "da" false,
         Movie.mk "b" "tb" 2 "db" true,
         Movie.mk "c" "tc" 3 "dc" false])
        (some false) (some "old") () := by
  have h := show_description_index_one
    (AppState.mk (some
      [Movie.mk "a" "ta" 1 "da" true,
       Movie.mk "b" "tb" 2 "db" false,
       Movie.mk "c" "tc" 3 "dc" true])
      (some false) (some "old") ())
    (MovieAction.mk SHOW_MOVIE_DESCRIPTION (some 1) none none none)
    (Movie.mk "a" "ta" 1 "da" true)
    (Movie.mk "b" "tb" 2 "db" false)
    (Movie.mk "c" "tc" 3 "dc" true) rfl rfl
  rw [h]

/-- C9: when `items` is absent or the empty list, the show-description
reducer returns the state with `items` set to `undefined` (every other
field unchanged); in particular an existing empty `items` list is
replaced by `undefined`, so the `items` field does change rather than
the state being left as it was. -/
theorem show_description_empty_items {ρ ε : Type} (s : AppState ρ ε) (a : MovieAction ρ)
    (h : s.items = none ∨ s.items = some []) :
    showMovieDescription s a = { s with items := none } ∧
    (s.items = some [] → (showMovieDescription s a).items ≠ s.items) := by
  have hmain : showMovieDescription s a = { s with items := none } := by
    rcases h with h | h <;> simp [showMovieDescription, h]
  refine ⟨hmain, fun hempty => ?_⟩
  rw [hmain, hempty]
  simp

/-- Witness for C9 at a concrete state whose `items` is the empty
list. -/
theorem show_description_empty_items_witness :
    showMovieDescription
        (AppState.mk (some ([] : List (Movie Nat))) none none ())
        (MovieAction.mk SHOW_MOVIE_DESCRIPTION (some 0) none none none) =
      AppState.mk none none none () ∧
    (showMovieDescription
        (AppState.mk (some ([] : List (Movie Nat))) none none ())
        (MovieAction.mk SHOW_MOVIE_DESCRIPTION (some 0) none none none)).items ≠
      some [] := by
  have h := show_description_empty_items
    (AppState.mk (some ([] : List (Movie Nat))) none none ())
    (MovieAction.mk SHOW_MOVIE_DESCRIPTION (some 0) none none none)
    (Or.inr rfl)
  exact ⟨h.1, h.2 rfl⟩

/-- When no position of the list can satisfy `index === action.index`,
the map body of `showMovieDescription` sets `showDescription` to
`false` on every item and changes nothing else. -/
theorem selectItems_no_match {ρ : Type} (idx : Int) (l : List (Movie ρ)) :
    ∀ i : Nat, (∀ j : Nat, i ≤ j → j < i + l.length → (j : Int) ≠ idx) →
      selectItems (some idx) i l = l.map (fun m => { m with showDescription := false }) := by
  induction l with
  | nil => intro i _; rfl
  | cons m rest ih =>
    intro i h
    have hne : ((i : Nat) : Int) ≠ idx := h i le_rfl (by simp)
    have hrest := ih (i + 1) (fun j hj1 hj2 => h j (by omega) (by
      simp only [List.length_cons] at hj2 ⊢
      omega))
    simp only [selectItems, List.map_cons, hrest]
    rw [if_neg (by
      simp only [Option.some.injEq]
      exact fun hh => hne hh.symm)]

/-- C10: dispatching the show-description action with an index outside
`[0, items.length)` against a non-empty `items` list does not fail and
returns the state in which every item has `showDescription = false`,
every other field of every item and of the state unchanged. -/
theorem show_description_out_of_range {ρ ε : Type} (s : AppState ρ ε) (a : MovieAction ρ)
    (l : List (Movie ρ)) (idx : Int) (hi : s.items = some l) (hne : l ≠ [])
    (ha : a.index = some idx) (hout : idx < 0 ∨ (l.length : Int) ≤ idx) :
    showMovieDescription s a =
      { s with items := some (l.map (fun m => { m with showDescription := false })) } := by
  have hlen : 0 < l.length := List.length_pos.mpr hne
  have hsel := selectItems_no_match idx l 0 (fun j hj1 hj2 hj3 => by
    rcases hout with h | h <;> omega)
  simp [showMovieDescription, hi, ha, hlen, hsel]

/-- Witness for C10: a concrete 2-item state and the out-of-range
index 5. -/
theorem show_description_out_of_range_witness :
    showMovieDescription
      (AppState.mk (some
        [Movie.mk "a" "ta" 1 "da" true,
         Movie.mk "b" "tb" 2 "db" true])
        none none ())
      (MovieAction.mk SHOW_MOVIE_DESCRIPTION (some 5) none none none) =
      AppState.mk (some
        [Movie.mk "a" "ta" 1 "da" false,
         Movie.mk "b" "tb" 2 "db" false])
        none none () := by
  have h := show_description_out_of_range
    (AppState.mk (some
      [Movie.mk "a" "ta" 1 "da" true,
       Movie.mk "b" "tb" 2 "db" true])
      none none ())
    (MovieAction.mk SHOW_MOVIE_DESCRIPTION (some 5) none none none)
    [Movie.mk "a" "ta" 1 "da" true, Movie.mk "b" "tb" 2 "db" true]
    5 rfl (by simp) rfl (by norm_num)
  rw [h]
  rfl

/-- C5: every failure of the search effect — every resolution of the
fetch chain that reaches the catch handler: non-2xx response, JSON
failure or network failure — makes the effect dispatch exactly one
action, of kind `FETCH_MOVIES_FAILURE`, whose error payload is the
stringified error when that string is non-empty and the fallback
literal `"Unknown error"` when no message is available (empty
stringification). -/
theorem fetch_effect_failure_normalized {ρ : Type} (a : MovieAction ρ) (q e : String)
    (hq : a.query = some q) (hne : q ≠ "") :
    fetchMoviesRequestEffect a (FetchOutcome.failure e) =
      some { type := FETCH_MOVIES_FAILURE, index := none, data := none
             error := some (if e = "" then "Unknown error" else e), query := none } ∧
    (e = "" →
      fetchMoviesRequestEffect a (FetchOutcome.failure e) =
        some { type := FETCH_MOVIES_FAILURE, index := none, data := none
               error := some "Unknown error", query := none }) := by
  constructor
  · simp [fetchMoviesRequestEffect, hq, hne]
  · intro h
    simp [fetchMoviesRequestEffect, hq, hne, h]

/-- Witness for C5: a concrete action with query `"batman"` and an
empty stringified error, exercising the fallback. -/
theorem fetch_effect_failure_normalized_witness :
    fetchMoviesRequestEffect
        (MovieAction.mk FETCH_MOVIES_REQUEST none none none (some "batman") : MovieAction Nat)
        (FetchOutcome.failure "") =
      some (MovieAction.mk FETCH_MOVIES_FAILURE none none (some "Unknown error") none) := by
  have h := fetch_effect_failure_normalized
    (MovieAction.mk FETCH_MOVIES_REQUEST none none none (some "batman") : MovieAction Nat)
    "batman" "" rfl (by decide)
  exact h.2 rfl

end MoviesListApp
